import Mathlib

/-!
Verification of the `MultiHeadAttention` layer from `keras_multi_head`
(`keras_multi_head/multi_head_attention.py`), shallowly embedded in Lean 4.

Modelling conventions:
* Python shapes (tuples of dimensions) are `List ℕ`; the build-time input is
  either a single shape or a list of exactly three shapes (query, key, value).
* Python exceptions are an explicit error type `PyErr`; `a % b` and `a // b`
  on plain integers are `pymod` / `pydiv`, which raise `ZeroDivisionError`
  for a zero divisor exactly as Python does, and `t[-1]` on a tuple is
  `lastDim`, which raises `IndexError` on an empty tuple.
* The layer object is a record `Layer` holding the construction configuration
  (identities of the activation / initializer / regularizer / constraint are
  abstract strings, as resolved registry identifiers) together with the four
  optional weight slots `Wq`, `Wk`, `Wv`, `Wo`, which are `none` until built.
* `buildLayer` translates `MultiHeadAttention.build` as a state transformer
  returning `(raised exception?, layer state at that point)`; weight slots are
  assigned in source order, so the state returned with an exception is the
  state at the moment the exception was raised.
* Forward computation (`call`) works on concrete rank-3 tensors
  (`List (List (List ℚ))`, batch x sequence x feature) with the scaled
  dot-product attention primitive kept abstract, as the spec treats it as an
  external collaborator.
-/

namespace KerasMultiHead

/-- A shape is a tuple of dimensions, e.g. `[batch, seq_len, feature_dim]`. -/
abbrev Shape := List Nat

/-- Build-time input: a single shape (self-attention) or a list of exactly
three shapes (query, key, value), as destructured by `q, k, v = input_shape`. -/
inductive InputShape where
  | single (s : Shape)
  | triple (q k v : Shape)
deriving DecidableEq

/-- Python exceptions that the modelled code can raise. -/
inductive PyErr where
  | indexError (msg : String)
  | zeroDivisionError (msg : String)
deriving DecidableEq

/-- Python `a % b` on machine integers: raises `ZeroDivisionError` when `b = 0`. -/
def pymod (a b : Nat) : Except PyErr Nat :=
  if b = 0 then .error (.zeroDivisionError "integer division or modulo by zero")
  else .ok (a % b)

/-- Python `a // b` on machine integers: raises `ZeroDivisionError` when `b = 0`. -/
def pydiv (a b : Nat) : Except PyErr Nat :=
  if b = 0 then .error (.zeroDivisionError "integer division or modulo by zero")
  else .ok (a / b)

/-- Python `s[-1]` on a tuple: raises `IndexError` on an empty tuple. -/
def lastDim (s : Shape) : Except PyErr Nat :=
  match s.getLast? with
  | some d => .ok d
  | none => .error (.indexError "tuple index out of range")

/-- One weight tensor as allocated by `add_weight`: its shape, the strategies
it was allocated with, and its name.  The call sites in `build` pass only
`shape`, `initializer` and `name`, so `add_weight`'s `regularizer` and
`constraint` keep their default `None`. -/
structure Weight where
  shape : Nat × Nat
  wInitializer : String
  wRegularizer : Option String
  wConstraint : Option String
  wName : String
deriving DecidableEq

/-- The layer object: construction configuration (strategy identities stored
as resolved by the registries) plus the four weight slots, `none` after
`__init__` sets `self.Wq, self.Wk, self.Wv, self.Wo = None, None, None, None`. -/
structure Layer where
  head_num : Nat
  activation : Option String
  kernel_initializer : String
  kernel_regularizer : Option String
  kernel_constraint : Option String
  history_only : Bool
  lName : String
  Wq : Option Weight
  Wk : Option Weight
  Wv : Option Weight
  Wo : Option Weight
deriving DecidableEq

/-- The constructor `__init__`: stores every argument without validation and
leaves the four weight slots unset. -/
def initLayer (head_num : Nat) (activation : Option String)
    (kernel_initializer : String) (kernel_regularizer : Option String)
    (kernel_constraint : Option String) (history_only : Bool)
    (lName : String) : Layer :=
  { head_num := head_num
    activation := activation
    kernel_initializer := kernel_initializer
    kernel_regularizer := kernel_regularizer
    kernel_constraint := kernel_constraint
    history_only := history_only
    lName := lName
    Wq := none, Wk := none, Wv := none, Wo := none }

/-- Normalisation of the build-time input shape: `q = k = v = input_shape`
for a single shape, unpacking for a triple. -/
def shapesOf : InputShape → Shape × Shape × Shape
  | .single s => (s, s, s)
  | .triple q k v => (q, k, v)

/-- The divisibility-failure message from `build`, formatted exactly as
`'Invalid head number %d with the given input dim %d' % (head_num, feature_dim)`. -/
def invalidHeadMsg (head_num feature_dim : Nat) : String :=
  "Invalid head number " ++ toString head_num ++
    " with the given input dim " ++ toString feature_dim

/-- Allocation of one weight by `add_weight` as called from `build`:
only `shape`, `initializer` and `name` are passed, so the regularizer and
constraint of the allocated weight are `None` regardless of configuration. -/
def addWeight (l : Layer) (shape : Nat × Nat) (suffix : String) : Weight :=
  { shape := shape
    wInitializer := l.kernel_initializer
    wRegularizer := none
    wConstraint := none
    wName := l.lName ++ suffix }

/-- Translation of `MultiHeadAttention.build`.  Returns the raised exception
(if any) together with the layer state at the point control left the method:
the divisibility check runs before any weight is allocated, and the four
`add_weight` assignments happen in source order `Wq`, `Wk`, `Wv`, `Wo`. -/
def buildLayer (l : Layer) (s : InputShape) : Option PyErr × Layer :=
  match shapesOf s with
  | (q, k, v) =>
    match lastDim v with
    | .error e => (some e, l)
    | .ok feature_dim =>
      match pymod feature_dim l.head_num with
      | .error e => (some e, l)
      | .ok r =>
        if r ≠ 0 then
          (some (.indexError (invalidHeadMsg l.head_num feature_dim)), l)
        else
          match lastDim q with
          | .error e => (some e, l)
          | .ok qd =>
            let l1 := { l with Wq := some (addWeight l (qd, feature_dim) "_Wq") }
            match lastDim k with
            | .error e => (some e, l1)
            | .ok kd =>
              let l2 := { l1 with Wk := some (addWeight l (kd, feature_dim) "_Wk") }
              let l3 := { l2 with Wv := some (addWeight l (feature_dim, feature_dim) "_Wv") }
              let l4 := { l3 with Wo := some (addWeight l (feature_dim, feature_dim) "_Wo") }
              (none, l4)

/-- Translation of `MultiHeadAttention.compute_output_shape`: for a triple it
returns `q[:-1] + (v[-1],)` (raising `IndexError` on an empty value shape),
for a single shape it returns the shape unchanged. -/
def computeOutputShape (s : InputShape) : Except PyErr Shape :=
  match s with
  | .triple q _ v =>
    match lastDim v with
    | .error e => .error e
    | .ok d => .ok (q.dropLast ++ [d])
  | .single sh => .ok sh

/-- The mask argument of `compute_mask`: either a scalar (a mask tensor, or
`None`) or a Python list of per-input masks. -/
inductive MaskArg (M : Type) where
  | scalar (m : Option M)
  | list (ms : List (Option M))
deriving DecidableEq

/-- Translation of `MultiHeadAttention.compute_mask`: `input_mask[0]` when
the argument is a list, otherwise the argument unchanged. -/
def computeMask {M : Type} (input_mask : MaskArg M) : Except PyErr (Option M) :=
  match input_mask with
  | .list ms =>
    match ms with
    | [] => .error (.indexError "list index out of range")
    | m :: _ => .ok m
  | .scalar m => .ok m

/-! ### Forward computation (`call`) on concrete rank-3 tensors -/

/-- A feature vector (innermost axis). -/
abbrev Vec := List ℚ

/-- A 2-D weight matrix, as a list of rows. -/
abbrev Mat := List Vec

/-- A rank-3 tensor: batch x sequence x feature. -/
abbrev Tensor3 := List (List Vec)

/-- Row-vector times matrix, contracting the trailing feature axis:
entry `j` of the result is `Σ i, x i * w i j`. -/
def vecMat (x : Vec) (w : Mat) : Vec :=
  (List.range (w.headD []).length).map
    (fun j => (List.zipWith (fun a row => a * row.getD j 0) x w).sum)

/-- Map a function over every feature vector of a rank-3 tensor. -/
def mapVecs (f : Vec → Vec) (t : Tensor3) : Tensor3 :=
  t.map (fun m => m.map f)

/-- `K.dot(t, w)`: matrix product contracting the trailing feature axis. -/
def dot3 (t : Tensor3) (w : Mat) : Tensor3 :=
  mapVecs (fun r => vecMat r w) t

/-- Elementwise application of an activation function. -/
def actElem (f : ℚ → ℚ) (t : Tensor3) : Tensor3 :=
  t.map (fun m => m.map (fun r => r.map f))

/-- The guard `if self.activation is not None`: apply the activation
elementwise when configured, otherwise leave the tensor unchanged. -/
def applyActOpt (a : Option (ℚ → ℚ)) (t : Tensor3) : Tensor3 :=
  match a with
  | some f => actElem f t
  | none => t

/-- `t[:, :, b:e]`: the trailing-axis slice `[b, e)` of a rank-3 tensor. -/
def slice3 (t : Tensor3) (b e : Nat) : Tensor3 :=
  mapVecs (fun r => (r.take e).drop b) t

/-- `K.concatenate`: concatenation of tensors along the trailing axis. -/
def concatLast : List Tensor3 → Tensor3
  | [] => []
  | [t] => t
  | t :: ts => List.zipWith (List.zipWith (fun a b => a ++ b)) t (concatLast ts)

/-- `K.shape(t)[-1]`: the runtime trailing dimension of a rank-3 tensor. -/
def lastDim3 (t : Tensor3) : Nat :=
  ((t.headD []).headD []).length

/-- Forward-time input: a single tensor (self-attention) or a
query/key/value triple. -/
inductive CallInputs where
  | single (t : Tensor3)
  | triple (q k v : Tensor3)

/-- The configuration consumed by the forward pass: head count, the resolved
activation function (`none` = no activation), and the causal-masking flag. -/
structure AttnCfg where
  head_num : Nat
  activation : Option (ℚ → ℚ)
  history_only : Bool

/-- The external scaled-dot-product-attention primitive, abstract: it receives
the causal-masking flag and the per-head query/key/value slices. -/
abbrev AttnPrim := Bool → Tensor3 → Tensor3 → Tensor3 → Tensor3

/-- Translation of `MultiHeadAttention.call`: normalise the inputs, project by
`Wq`/`Wk`/`Wv`, apply the activation under one `is not None` guard, loop
`for i in range(head_num)` appending each head's attention output to a list,
concatenate, project by `Wo`, and apply the activation again. -/
def call (cfg : AttnCfg) (Wq Wk Wv Wo : Mat) (attend : AttnPrim)
    (inputs : CallInputs) : Tensor3 :=
  let qkv := match inputs with
    | .single t => (t, t, t)
    | .triple q k v => (q, k, v)
  let feature_dim := lastDim3 qkv.2.2
  let head_dim := feature_dim / cfg.head_num
  let q1 := applyActOpt cfg.activation (dot3 qkv.1 Wq)
  let k1 := applyActOpt cfg.activation (dot3 qkv.2.1 Wk)
  let v1 := applyActOpt cfg.activation (dot3 qkv.2.2 Wv)
  let outputs := (List.range cfg.head_num).foldl
    (fun acc i => acc ++ [attend cfg.history_only
      (slice3 q1 (i * head_dim) ((i + 1) * head_dim))
      (slice3 k1 (i * head_dim) ((i + 1) * head_dim))
      (slice3 v1 (i * head_dim) ((i + 1) * head_dim))]) []
  applyActOpt cfg.activation (dot3 (concatLast outputs) Wo)

/-- Reference composition of the forward contract, following the spec's
step list: (1) normalise the input to `(q, k, v)`; (2) `head_dim` =
runtime trailing dimension of `v` integer-divided by `head_num`;
(3) linear projections; (4) activation; (5) for each head index `i` in
`[0, head_num)` pass the trailing-axis slices `[i*head_dim, (i+1)*head_dim)`
of the three projected tensors and the causal-masking flag to the attention
primitive; (6) concatenate the head outputs in head-index order
`0..head_num-1`; (7) project by `Wo`; (8) activation; (9) return. -/
def forwardContract (cfg : AttnCfg) (Wq Wk Wv Wo : Mat) (attend : AttnPrim)
    (inputs : CallInputs) : Tensor3 :=
  let qkv := match inputs with
    | .single t => (t, t, t)
    | .triple q k v => (q, k, v)
  let head_dim := lastDim3 qkv.2.2 / cfg.head_num
  let q1 := applyActOpt cfg.activation (dot3 qkv.1 Wq)
  let k1 := applyActOpt cfg.activation (dot3 qkv.2.1 Wk)
  let v1 := applyActOpt cfg.activation (dot3 qkv.2.2 Wv)
  let heads := (List.range cfg.head_num).map
    (fun i => attend cfg.history_only
      (slice3 q1 (i * head_dim) ((i + 1) * head_dim))
      (slice3 k1 (i * head_dim) ((i + 1) * head_dim))
      (slice3 v1 (i * head_dim) ((i + 1) * head_dim)))
  applyActOpt cfg.activation (dot3 (concatLast heads) Wo)

/-- The four weight matrices as the layer state read by the forward pass. -/
structure CallWeights where
  Wq : Mat
  Wk : Mat
  Wv : Mat
  Wo : Mat

/-- The forward pass as a state transformer on the layer's weights: the method
body of `call` reads `self.Wq`..`self.Wo` and never assigns to `self`, so the
resulting state is the incoming state. -/
def callWithState (cfg : AttnCfg) (attend : AttnPrim) (st : CallWeights)
    (inputs : CallInputs) : Tensor3 × CallWeights :=
  (call cfg st.Wq st.Wk st.Wv st.Wo attend inputs, st)

/-! ### Serialization (`get_config` / reconstruction via `__init__`) -/

/-- A value stored in the flat configuration mapping. -/
inductive CfgVal where
  | natV (n : Nat)
  | strV (s : String)
  | ostrV (s : Option String)
  | boolV (b : Bool)
deriving DecidableEq

/-- Translation of `get_config`: the base layer's configuration (its `name`)
followed by the six construction parameters, combined as
`dict(list(base_config.items()) + list(config.items()))`. -/
def getConfig (l : Layer) : List (String × CfgVal) :=
  [("name", .strV l.lName),
   ("head_num", .natV l.head_num),
   ("activation", .ostrV l.activation),
   ("kernel_initializer", .strV l.kernel_initializer),
   ("kernel_regularizer", .ostrV l.kernel_regularizer),
   ("kernel_constraint", .ostrV l.kernel_constraint),
   ("history_only", .boolV l.history_only)]

/-- Lookup with Python `dict` semantics over a key/value list built from
concatenated item lists: the last occurrence of a key wins. -/
def lookupLast (key : String) (c : List (String × CfgVal)) : Option CfgVal :=
  c.reverse.lookup key

/-- Reconstruction of a layer from a flat configuration mapping, i.e.
`cls(**config)` routed through `__init__`: `head_num` is required, the other
parameters fall back to the defaults of `__init__` when absent, and the
weight slots of the new instance are unset. -/
def fromConfig (c : List (String × CfgVal)) : Option Layer := do
  let h ← match lookupLast "head_num" c with
    | some (.natV n) => some n
    | _ => none
  let a ← match lookupLast "activation" c with
    | some (.ostrV x) => some x
    | none => some (some "relu")
    | _ => none
  let ki ← match lookupLast "kernel_initializer" c with
    | some (.strV x) => some x
    | none => some "glorot_normal"
    | _ => none
  let kr ← match lookupLast "kernel_regularizer" c with
    | some (.ostrV x) => some x
    | none => some none
    | _ => none
  let kc ← match lookupLast "kernel_constraint" c with
    | some (.ostrV x) => some x
    | none => some none
    | _ => none
  let ho ← match lookupLast "history_only" c with
    | some (.boolV b) => some b
    | none => some false
    | _ => none
  let nm ← match lookupLast "name" c with
    | some (.strV s) => some s
    | none => some "multi_head_attention"
    | _ => none
  pure (initLayer h a ki kr kc ho nm)

/-! ### Concrete layers used by the witnesses -/

/-- A layer as constructed by `MultiHeadAttention(head_num=2)`. -/
def exLayer2 : Layer :=
  initLayer 2 (some "relu") "glorot_normal" none none false "multi_head"

/-- A layer as constructed by `MultiHeadAttention(head_num=3)`. -/
def exLayer3 : Layer :=
  initLayer 3 (some "relu") "glorot_normal" none none false "multi_head"

/-- A layer as constructed with `head_num=0`. -/
def exLayer0 : Layer :=
  initLayer 0 (some "relu") "glorot_normal" none none false "multi_head"

/-- A layer constructed with a regularizer and a constraint configured. -/
def exLayerReg : Layer :=
  initLayer 2 (some "relu") "glorot_normal" (some "l2") (some "max_norm")
    false "multi_head"

/-! ### Helper lemmas -/

/-- Characterisation of a successful tuple indexing `v[-1]`. -/
lemma lastDim_ok_iff (s : Shape) (d : Nat) :
    lastDim s = Except.ok d ↔ s.getLast? = some d := by
  unfold lastDim
  cases h : s.getLast? <;> simp

/-- Indexing `s[-1]` succeeds on a nonempty tuple. -/
lemma lastDim_of_ne_nil (s : Shape) (h : s ≠ []) :
    lastDim s = Except.ok (s.getLast h) := by
  rw [lastDim_ok_iff]
  exact List.getLast?_eq_getLast_of_ne_nil h

/-- Accumulating a list by appending one element per loop iteration is the
same as mapping over the iteration space. -/
lemma foldl_append_singleton {α β : Type} (f : α → β) (l : List α) :
    ∀ acc : List β,
      List.foldl (fun a i => a ++ [f i]) acc l = acc ++ l.map f := by
  induction l with
  | nil => intro acc; simp
  | cons x xs ih => intro acc; simp [ih]

/-! ### Claim theorems -/

/-- Claim C1: with `head_num > 0` and nonempty shapes, `build` raises an
`IndexError` whose message names both `head_num` and `feature_dim` exactly
when `feature_dim % head_num != 0`, where `feature_dim` is the value shape's
last dimension, and it succeeds whenever `head_num` divides `feature_dim`. -/
theorem build_divisibility (l : Layer) (s : InputShape) (fd : Nat)
    (hpos : 0 < l.head_num)
    (hq : (shapesOf s).1 ≠ [])
    (hk : (shapesOf s).2.1 ≠ [])
    (hv : lastDim (shapesOf s).2.2 = .ok fd) :
    (fd % l.head_num ≠ 0 →
      buildLayer l s = (some (.indexError (invalidHeadMsg l.head_num fd)), l))
    ∧ (fd % l.head_num = 0 → (buildLayer l s).1 = none) := by
  have hn0 : l.head_num ≠ 0 := Nat.pos_iff_ne_zero.mp hpos
  cases s with
  | single sh =>
    simp only [shapesOf] at hq hk hv
    constructor
    · intro hnd
      simp [buildLayer, shapesOf, pymod, hv, hn0, hnd]
    · intro hd
      simp [buildLayer, shapesOf, pymod, hv, hn0, hd, lastDim_of_ne_nil sh hq]
  | triple q k v =>
    simp only [shapesOf] at hq hk hv
    constructor
    · intro hnd
      simp [buildLayer, shapesOf, pymod, hv, hn0, hnd]
    · intro hd
      simp [buildLayer, shapesOf, pymod, hv, hn0, hd,
        lastDim_of_ne_nil q hq, lastDim_of_ne_nil k hk]

/-- Witness for C1 at the spec's concrete scenario 2: `head_num = 2` with
input shape `(2, 3)` raises the configuration `IndexError`. -/
theorem build_divisibility_witness :
    buildLayer exLayer2 (.single [2, 3]) =
      (some (.indexError (invalidHeadMsg exLayer2.head_num 3)), exLayer2) :=
  (build_divisibility exLayer2 (.single [2, 3]) 3 (by decide) (by decide)
    (by decide) rfl).1 (by decide)

/-- Claim C9: the divisibility check precedes all weight allocation, so when
`build` raises the configuration error the returned state is the incoming
layer unchanged; in particular on a freshly constructed layer all four weight
slots are still unset. -/
theorem build_error_leaves_state (l : Layer) (s : InputShape) (fd : Nat)
    (hpos : 0 < l.head_num)
    (hv : lastDim (shapesOf s).2.2 = .ok fd)
    (hndiv : fd % l.head_num ≠ 0)
    (hWq : l.Wq = none) (hWk : l.Wk = none)
    (hWv : l.Wv = none) (hWo : l.Wo = none) :
    (buildLayer l s).1 = some (.indexError (invalidHeadMsg l.head_num fd))
    ∧ (buildLayer l s).2 = l
    ∧ (buildLayer l s).2.Wq = none ∧ (buildLayer l s).2.Wk = none
    ∧ (buildLayer l s).2.Wv = none ∧ (buildLayer l s).2.Wo = none := by
  have hn0 : l.head_num ≠ 0 := Nat.pos_iff_ne_zero.mp hpos
  cases s with
  | single sh =>
    simp only [shapesOf] at hv
    simp [buildLayer, shapesOf, pymod, hv, hn0, hndiv, hWq, hWk, hWv, hWo]
  | triple q k v =>
    simp only [shapesOf] at hv
    simp [buildLayer, shapesOf, pymod, hv, hn0, hndiv, hWq, hWk, hWv, hWo]

/-- Witness for C9: failing build on the triple of shapes
`(2,3), (4,5), (4,7)` with `head_num = 2` leaves the fresh layer unchanged. -/
theorem build_error_leaves_state_witness :
    (buildLayer exLayer2 (.triple [2, 3] [4, 5] [4, 7])).1 =
      some (.indexError (invalidHeadMsg exLayer2.head_num 7))
    ∧ (buildLayer exLayer2 (.triple [2, 3] [4, 5] [4, 7])).2 = exLayer2
    ∧ (buildLayer exLayer2 (.triple [2, 3] [4, 5] [4, 7])).2.Wq = none
    ∧ (buildLayer exLayer2 (.triple [2, 3] [4, 5] [4, 7])).2.Wk = none
    ∧ (buildLayer exLayer2 (.triple [2, 3] [4, 5] [4, 7])).2.Wv = none
    ∧ (buildLayer exLayer2 (.triple [2, 3] [4, 5] [4, 7])).2.Wo = none :=
  build_error_leaves_state exLayer2 (.triple [2, 3] [4, 5] [4, 7]) 7
    (by decide) rfl (by decide) rfl rfl rfl rfl

/-- Claim C2: for a valid configuration, the computed output shape's leading
dimensions equal the query shape's leading dimensions and its trailing
dimension is `feature_dim`, the value shape's last dimension, for both the
single-shape and the triple-shape form. -/
theorem compute_output_shape_law (hn fd : Nat) (s : InputShape)
    (_hdvd : hn ∣ fd)
    (hv : lastDim (shapesOf s).2.2 = .ok fd) :
    ∃ out, computeOutputShape s = .ok out
      ∧ out.dropLast = (shapesOf s).1.dropLast
      ∧ out.getLast? = some fd := by
  cases s with
  | single sh =>
    simp only [shapesOf] at hv
    exact ⟨sh, rfl, rfl, (lastDim_ok_iff sh fd).mp hv⟩
  | triple q k v =>
    simp only [shapesOf] at hv
    refine ⟨q.dropLast ++ [fd], ?_, ?_, ?_⟩
    · simp [computeOutputShape, hv]
    · exact List.dropLast_concat
    · exact List.getLast?_concat q.dropLast

/-- Witness for C2 at the spec's concrete scenario 3: shapes
`(2,3), (4,5), (4,6)` with `head_num = 3` give output shape `(2, 6)`. -/
theorem compute_output_shape_law_witness :
    ∃ out, computeOutputShape (.triple [2, 3] [4, 5] [4, 6]) = .ok out
      ∧ out.dropLast = (shapesOf (.triple [2, 3] [4, 5] [4, 6])).1.dropLast
      ∧ out.getLast? = some 6 :=
  compute_output_shape_law 3 6 (.triple [2, 3] [4, 5] [4, 6]) (by decide) rfl

/-- Claim C3: the forward computation equals the spec's reference
composition: project with `Wq`/`Wk`/`Wv`, activate, feed each head the
trailing-axis slices `[i*head_dim, (i+1)*head_dim)` together with the
causal-masking flag, concatenate the head outputs in head-index order,
project with `Wo`, and activate again. -/
theorem call_eq_forwardContract (cfg : AttnCfg) (Wq Wk Wv Wo : Mat)
    (attend : AttnPrim) (inputs : CallInputs) :
    call cfg Wq Wk Wv Wo attend inputs =
      forwardContract cfg Wq Wk Wv Wo attend inputs := by
  cases inputs <;>
    simp [call, forwardContract, foldl_append_singleton]

/-- Claim C6: a triple of input masks propagates exactly the query's mask,
and a non-list input mask is passed through unchanged. -/
theorem compute_mask_passthrough {M : Type} (mq mk mv : Option M)
    (m : Option M) :
    computeMask (.list [mq, mk, mv]) = .ok mq
    ∧ computeMask (.scalar m) = .ok m :=
  ⟨rfl, rfl⟩

/-- Example forward configuration used by the C7 witness. -/
def exCfg : AttnCfg :=
  { head_num := 2, activation := none, history_only := false }

/-- Example attention primitive used by the C7 witness. -/
def exAttend : AttnPrim := fun _ q _ _ => q

/-- Claim C7: calling with a single tensor equals calling with that tensor
tripled, and likewise for the computed output shape (on a nonempty shape)
and the propagated mask. -/
theorem single_eq_triple {M : Type} (cfg : AttnCfg) (Wq Wk Wv Wo : Mat)
    (attend : AttnPrim) (t : Tensor3) (sh : Shape) (m : Option M)
    (hsh : sh ≠ []) :
    call cfg Wq Wk Wv Wo attend (.single t) =
      call cfg Wq Wk Wv Wo attend (.triple t t t)
    ∧ computeOutputShape (.single sh) =
      computeOutputShape (.triple sh sh sh)
    ∧ computeMask (MaskArg.scalar m) =
      computeMask (.list [m, m, m]) := by
  refine ⟨rfl, ?_, rfl⟩
  simp [computeOutputShape, lastDim_of_ne_nil sh hsh,
    List.dropLast_concat_getLast hsh]

/-- Witness for C7 on a concrete tensor, shape and mask. -/
theorem single_eq_triple_witness :
    call exCfg [[1]] [[1]] [[1]] [[1]] exAttend (.single [[[1]]]) =
      call exCfg [[1]] [[1]] [[1]] [[1]] exAttend (.triple [[[1]]] [[[1]]] [[[1]]])
    ∧ computeOutputShape (.single [2, 3]) =
      computeOutputShape (.triple [2, 3] [2, 3] [2, 3])
    ∧ computeMask (MaskArg.scalar (some 5)) =
      computeMask (.list [some 5, some 5, some 5]) :=
  single_eq_triple exCfg [[1]] [[1]] [[1]] [[1]] exAttend [[[1]]] [2, 3]
    (some 5) (by decide)

/-- Claim C8: the forward pass, read as a state transformer on the layer's
weights, leaves the weights unchanged, and a second call on the state
returned by the first produces the same output. -/
theorem call_pure_and_deterministic (cfg : AttnCfg) (attend : AttnPrim)
    (st : CallWeights) (inputs : CallInputs) :
    (callWithState cfg attend st inputs).2 = st
    ∧ (callWithState cfg attend (callWithState cfg attend st inputs).2
        inputs).1 = (callWithState cfg attend st inputs).1 :=
  ⟨rfl, rfl⟩

/-- Claim C4: for every constructed layer, rebuilding an instance from the
flat mapping returned by `get_config` succeeds and yields a not-yet-built
layer with the same configuration (and the same name). -/
theorem getConfig_roundtrip (l : Layer) :
    fromConfig (getConfig l) =
      some { l with Wq := none, Wk := none, Wv := none, Wo := none } := by
  simp [fromConfig, getConfig, lookupLast, List.lookup, initLayer]

/-- Claim C5 at a failing input: `build` does allocate the four weights with
the claimed shapes, pairwise distinct names, and the configured
initializer, but it passes neither the configured regularizer nor the
configured constraint to `add_weight`, so the allocated weights carry
`None` for both even though the layer was configured with `l2` and
`max_norm`. -/
theorem build_ignores_regularizer_and_constraint :
    buildLayer exLayerReg (.single [4, 4]) =
      (none, { exLayerReg with
        Wq := some { shape := (4, 4), wInitializer := "glorot_normal",
                     wRegularizer := none, wConstraint := none,
                     wName := "multi_head_Wq" }
        Wk := some { shape := (4, 4), wInitializer := "glorot_normal",
                     wRegularizer := none, wConstraint := none,
                     wName := "multi_head_Wk" }
        Wv := some { shape := (4, 4), wInitializer := "glorot_normal",
                     wRegularizer := none, wConstraint := none,
                     wName := "multi_head_Wv" }
        Wo := some { shape := (4, 4), wInitializer := "glorot_normal",
                     wRegularizer := none, wConstraint := none,
                     wName := "multi_head_Wo" } })
    ∧ exLayerReg.kernel_regularizer = some "l2"
    ∧ exLayerReg.kernel_constraint = some "max_norm" :=
  ⟨rfl, rfl, rfl⟩

/-- Claim C10: construction stores any `head_num` without validation and
leaves the weights unset; with `head_num = 0`, `build` raises
`ZeroDivisionError` (not the documented configuration `IndexError`); and for
`head_num > 0` the Python `%` and `//` by `head_num` are well-defined. -/
theorem init_accepts_any_head_num :
    (∀ h a ki kr kc ho nm,
      (initLayer h a ki kr kc ho nm).head_num = h
      ∧ (initLayer h a ki kr kc ho nm).Wq = none
      ∧ (initLayer h a ki kr kc ho nm).Wo = none)
    ∧ (∀ (l : Layer) (s : InputShape) (fd : Nat), l.head_num = 0 →
        lastDim (shapesOf s).2.2 = .ok fd →
        buildLayer l s =
          (some (.zeroDivisionError "integer division or modulo by zero"), l))
    ∧ (∀ fd hn : Nat, 0 < hn →
        pymod fd hn = .ok (fd % hn) ∧ pydiv fd hn = .ok (fd / hn)) := by
  refine ⟨fun h a ki kr kc ho nm => ⟨rfl, rfl, rfl⟩, ?_, ?_⟩
  · intro l s fd h0 hv
    cases s with
    | single sh =>
      simp only [shapesOf] at hv
      simp [buildLayer, shapesOf, pymod, hv, h0]
    | triple q k v =>
      simp only [shapesOf] at hv
      simp [buildLayer, shapesOf, pymod, hv, h0]
  · intro fd hn hpos
    have hn0 : hn ≠ 0 := Nat.pos_iff_ne_zero.mp hpos
    exact ⟨by simp [pymod, hn0], by simp [pydiv, hn0]⟩

/-- Witness for C10: building a `head_num = 0` layer on shape `(5,)` raises
`ZeroDivisionError`. -/
theorem init_accepts_any_head_num_witness :
    buildLayer exLayer0 (.single [5]) =
      (some (.zeroDivisionError "integer division or modulo by zero"),
        exLayer0) :=
  init_accepts_any_head_num.2.1 exLayer0 (.single [5]) 5 rfl rfl

end KerasMultiHead
